import Mathlib

/-!
Shallow embedding of `src/unicode.rs` (rustybuzz Unicode property core).

Codepoints are modelled as `Nat` (the `u32` value of a Rust `char`); the
per-codepoint lookups provided by external crates (`unicode_ccc`,
`unic_ucd_normal`, `unicode_general_category`, `unicode_script`,
`unicode_bidi_mirroring`) are passed in as function parameters, since their
data tables are not part of this repository.
-/

namespace Rustybuzz

/-- Embedding of Rust's `char::try_from(u: u32)`: succeeds exactly on Unicode
scalar values (below 0x110000 and not a surrogate). `none` models the
`unwrap()` panic branch of the exported FFI wrappers. -/
def charTryFrom (u : Nat) : Option Nat :=
  if u < 0x110000 ∧ ¬(0xD800 ≤ u ∧ u ≤ 0xDFFF) then some u else none

/-- Inversion for `charTryFrom`: a successful conversion returns its
input. -/
theorem charTryFrom_eq_some (u x : Nat) (h : charTryFrom u = some x) :
    x = u := by
  unfold charTryFrom at h
  split_ifs at h
  injection h with h
  exact h.symm

/-- Embedding of `hb_ucd_decompose_hangul` (src/unicode.rs:707).
`ab.wrapping_sub(S_BASE)` on `u32` is modelled as
`(ab + (2^32 - 0xAC00)) % 2^32`. Returns `some (a, b)` for the two output
codepoints when the input is a Hangul syllable, `none` otherwise. -/
def hb_ucd_decompose_hangul (ab : Nat) : Option (Nat × Nat) :=
  let si := (ab + (4294967296 - 0xAC00)) % 4294967296
  if 11172 ≤ si then
    none
  else if si % 28 ≠ 0 then
    -- LV,T
    some (0xAC00 + si / 28 * 28, 0x11A7 + si % 28)
  else
    -- L,V
    some (0x1100 + si / 588, 0x1161 + si % 588 / 28)

/-- Modelled from the spec: `unic_ucd_normal::compose` (an external crate,
not part of this repository). Per the spec it "returns the single codepoint
that canonically composes `a` followed by `b`, or none if no primary
composite exists"; the algorithmic Hangul composition (L+V and LV+T cases of
UAX #15) is written out, and the canonical composition pair table is passed
in as the parameter `tbl`. -/
def ucd_compose (tbl : Nat → Nat → Option Nat) (a b : Nat) : Option Nat :=
  if 0x1100 ≤ a ∧ a ≤ 0x1112 ∧ 0x1161 ≤ b ∧ b ≤ 0x1175 then
    -- L,V -> LV
    some (0xAC00 + ((a - 0x1100) * 21 + (b - 0x1161)) * 28)
  else if 0xAC00 ≤ a ∧ a ≤ 0xD7A3 ∧ (a - 0xAC00) % 28 = 0 ∧
          0x11A8 ≤ b ∧ b ≤ 0x11C2 then
    -- LV,T -> LVT
    some (a + (b - 0x11A7))
  else
    tbl a b

/-- Embedding of `hb_ucd_compose` (src/unicode.rs:691): converts both
arguments with `char::try_from().unwrap()` (`none` = panic), then returns
`some (some c)` on success (the out-pointer `*ab` is written) and
`some none` on failure (`*ab` untouched). -/
def hb_ucd_compose (tbl : Nat → Nat → Option Nat) (a b : Nat) :
    Option (Option Nat) :=
  (charTryFrom a).bind fun ca =>
    (charTryFrom b).map fun cb => ucd_compose tbl ca cb

/-- The arms of the `match` on `hb_ucd_decompose_hangul`'s result inside
`hb_ucd_decompose` (src/unicode.rs:749): on success the out-pointers hold
the Hangul pair and the return value is true, otherwise the rest of the
function runs. -/
def hangul_first (r : Option (Nat × Nat)) (rest : Option (Bool × Nat × Nat)) :
    Option (Bool × Nat × Nat) :=
  match r with
  | some p => some (true, p.1, p.2)
  | none => rest

/-- The arms of the `match` on `unic_ucd_normal::canonical_decomposition`'s
result inside `hb_ucd_decompose` (src/unicode.rs:754-773): no mapping leaves
the out-pointers at their initial `(ab, 0)` with a false return; a singleton
writes `(chars[0], 0)`; a pair writes `(chars[0], chars[1])`; any other
arity returns false with the out-pointers untouched. -/
def decompose_mapping (ab : Nat) (chars : Option (List Nat)) :
    Bool × Nat × Nat :=
  match chars with
  | none => (false, ab, 0)
  | some [c1] => (true, c1, 0)
  | some [c1, c2] => (true, c1, c2)
  | some _ => (false, ab, 0)

/-- Embedding of `hb_ucd_decompose` (src/unicode.rs:738). The result models
the FFI return value and the two out-pointers: `some (ok, a, b)` where `ok`
is the boolean return and `(a, b)` the final out-pointer contents (which the
function initializes to `(ab, 0)` before any lookup); `none` models the
`char::try_from(ab).unwrap()` panic, reached only after the Hangul attempt
fails. The canonical decomposition mapping (external crate) is the
parameter `dcp`. -/
def hb_ucd_decompose (dcp : Nat → Option (List Nat)) (ab : Nat) :
    Option (Bool × Nat × Nat) :=
  hangul_first (hb_ucd_decompose_hangul ab)
    ((charTryFrom ab).map fun c => decompose_mapping ab (dcp c))

/-- Embedding of the `MODIFIED_COMBINING_CLASS` 256-entry table
(src/unicode.rs:108-216), indexed by raw canonical combining class. It is
the identity permutation except: indices 10-26 (Hebrew permutation, module
`modified_combining_class` constants CCC10..CCC26), 27-33 (Arabic, moving
Shadda ccc=33 to 27 and shifting 27-32 up by one; CCC34/CCC35 stay put),
84 and 91 mapped to 0 (Telugu length marks zeroed, CCC84/CCC91), 103 mapped
to 3 (Thai sara u/uu, CCC103; CCC107 stays 107), 130 mapped to 132 and 132
mapped to 131 (Tibetan vowel signs, CCC130/CCC132; CCC129 stays 129). The
Lao entries CCC118 = 118 and CCC122 = 122 equal their indices. Named
`CanonicalCombiningClass` enum entries in the source (NotReordered = 0,
Overlay = 1, Nukta = 7, KanaVoicing = 8, Virama = 9, AttachedBelowLeft =
200, AttachedBelow = 202, AttachedAbove = 214, AttachedAboveRight = 216,
BelowLeft = 218, Below = 220, BelowRight = 222, Left = 224, Right = 226,
AboveLeft = 228, Above = 230, AboveRight = 232, DoubleBelow = 233,
DoubleAbove = 234, IotaSubscript = 240) are written as their values. -/
def MODIFIED_COMBINING_CLASS : List Nat := [
  0, 1, 2, 3, 4, 5, 6, 7, 8, 9,
  22, 15, 16, 17, 23, 18, 19, 20, 21, 14,
  24, 12, 25, 13, 10, 11, 26, 28, 29, 30,
  31, 32, 33, 27, 34, 35, 36, 37, 38, 39,
  40, 41, 42, 43, 44, 45, 46, 47, 48, 49,
  50, 51, 52, 53, 54, 55, 56, 57, 58, 59,
  60, 61, 62, 63, 64, 65, 66, 67, 68, 69,
  70, 71, 72, 73, 74, 75, 76, 77, 78, 79,
  80, 81, 82, 83, 0, 85, 86, 87, 88, 89,
  90, 0, 92, 93, 94, 95, 96, 97, 98, 99,
  100, 101, 102, 3, 104, 105, 106, 107, 108, 109,
  110, 111, 112, 113, 114, 115, 116, 117, 118, 119,
  120, 121, 122, 123, 124, 125, 126, 127, 128, 129,
  132, 131, 131, 133, 134, 135, 136, 137, 138, 139,
  140, 141, 142, 143, 144, 145, 146, 147, 148, 149,
  150, 151, 152, 153, 154, 155, 156, 157, 158, 159,
  160, 161, 162, 163, 164, 165, 166, 167, 168, 169,
  170, 171, 172, 173, 174, 175, 176, 177, 178, 179,
  180, 181, 182, 183, 184, 185, 186, 187, 188, 189,
  190, 191, 192, 193, 194, 195, 196, 197, 198, 199,
  200, 201, 202, 203, 204, 205, 206, 207, 208, 209,
  210, 211, 212, 213, 214, 215, 216, 217, 218, 219,
  220, 221, 222, 223, 224, 225, 226, 227, 228, 229,
  230, 231, 232, 233, 234, 235, 236, 237, 238, 239,
  240, 241, 242, 243, 244, 245, 246, 247, 248, 249,
  250, 251, 252, 253, 254, 255]

/-- Embedding of `CharExt::modified_combining_class` (src/unicode.rs:261).
The raw canonical combining class lookup
`unicode_ccc::get_canonical_combining_class` (external crate, value is a
`u8`) is the parameter `ccc : Nat → Fin 256`; the table index `k as usize`
is `(ccc u).val`, always within the 256-entry table. -/
def modified_combining_class (ccc : Nat → Fin 256) (u : Nat) : Nat :=
  -- XXX This hack belongs to the Myanmar shaper.
  let u2 := if u = 0x1037 then 0x103A else u
  -- XXX This hack belongs to the USE shaper (for Tai Tham):
  -- Reorder SAKOT to ensure it comes after any tone marks.
  if u2 = 0x1A60 then 254
  -- XXX This hack belongs to the Tibetan shaper:
  -- Reorder PADMA to ensure it comes after any vowel marks.
  else if u2 = 0x0FC6 then 254
  -- Reorder TSA -PHRU to reorder before U+0F74
  else if u2 = 0x0F39 then 127
  else MODIFIED_COMBINING_CLASS.getD (ccc u2).val 0

end Rustybuzz

namespace Rustybuzz

/-- C3: the three literal exception codepoints U+1A60 (Tai Tham SAKOT),
U+0FC6 (Tibetan PADMA) and U+0F39 (Tibetan TSA -PHRU) get exactly their
fixed override values 254, 254 and 127 from `modified_combining_class`,
whatever value the raw canonical combining class lookup would have produced
(the result is the same for every possible raw-CCC function `ccc`, so the
256-entry table is never consulted for them). -/
theorem modified_combining_class_literal_overrides :
    ∀ ccc : Nat → Fin 256,
      modified_combining_class ccc 0x1A60 = 254 ∧
      modified_combining_class ccc 0x0FC6 = 254 ∧
      modified_combining_class ccc 0x0F39 = 127 := by
  intro ccc
  exact ⟨rfl, rfl, rfl⟩

/-- C5 counterexample: the Lao entry of the table is NOT moved to an
otherwise-unused class value — `MODIFIED_COMBINING_CLASS` maps raw class
118 to 118 itself, so for U+0EB8 (LAO VOWEL SIGN U, raw ccc 118)
`modified_combining_class` returns the unchanged value 118. This refutes
the half of the claim that says the Lao vowel signs with raw CCC 118 are
assigned an otherwise-unused class value rather than left unchanged. -/
theorem lao_ccc118_left_unchanged :
    modified_combining_class (fun _ => (118 : Fin 256)) 0x0EB8 = 118 ∧
    MODIFIED_COMBINING_CLASS.getD 118 0 = 118 ∧
    MODIFIED_COMBINING_CLASS.getD 122 0 = 122 :=
  ⟨rfl, rfl, rfl⟩

set_option maxRecDepth 4096 in
/-- C5 amended: only the Thai vowel signs U+0E38/U+0E39 (raw CCC 103) are
assigned the otherwise-unused class value 3 (the only table index other
than 3 itself that maps to 3), which reorders them before the ccc-9 mark
U+0E3A; the Lao entries (raw CCC 118 sign u/uu and 122 tone marks) are left
unchanged, 118 already preceding 122. -/
theorem thai_ccc103_reorder_amended :
    modified_combining_class (fun _ => (103 : Fin 256)) 0x0E38 = 3 ∧
    modified_combining_class (fun _ => (103 : Fin 256)) 0x0E39 = 3 ∧
    MODIFIED_COMBINING_CLASS.getD 103 0 = 3 ∧
    MODIFIED_COMBINING_CLASS.getD 9 0 = 9 ∧ 3 < 9 ∧
    (∀ k : Fin 256, MODIFIED_COMBINING_CLASS.getD k.val 0 = 3 →
      k.val = 3 ∨ k.val = 103) ∧
    MODIFIED_COMBINING_CLASS.getD 118 0 = 118 ∧
    MODIFIED_COMBINING_CLASS.getD 122 0 = 122 ∧ 118 < 122 := by
  decide

/-- Witness for the amended C5 statement: instantiating its
only-index-3-and-103 clause at the concrete table index 3. -/
theorem thai_ccc103_reorder_amended_witness :
    ((3 : Fin 256) : Fin 256).val = 3 ∨ ((3 : Fin 256) : Fin 256).val = 103 :=
  thai_ccc103_reorder_amended.2.2.2.2.2.1 (3 : Fin 256) (by decide)

/-- C7: U+1037 (Myanmar dot below) is remapped to U+103A before the
raw-CCC lookup, so its modified combining class always equals that of
U+103A whatever the raw-CCC function is — an alias of another codepoint's
raw CCC, not a fixed value override (the result still varies with the raw
class recorded for U+103A, as the two concrete instantiations show). -/
theorem myanmar_1037_alias :
    (∀ ccc : Nat → Fin 256,
      modified_combining_class ccc 0x1037 = modified_combining_class ccc 0x103A) ∧
    modified_combining_class (fun _ => (9 : Fin 256)) 0x1037 = 9 ∧
    modified_combining_class (fun _ => (230 : Fin 256)) 0x1037 = 230 := by
  refine ⟨fun ccc => rfl, rfl, rfl⟩

/-- Embedding of `CharExt::is_default_ignorable` (src/unicode.rs:414):
dispatch on the plane (`ch >> 16`), then within the BMP on the page
(`ch >> 8`), then explicit codepoint tests. -/
def is_default_ignorable (ch : Nat) : Bool :=
  let plane := ch >>> 16
  if plane = 0 then
    -- BMP
    let page := ch >>> 8
    if page = 0x00 then decide (ch = 0x00AD)
    else if page = 0x03 then decide (ch = 0x034F)
    else if page = 0x06 then decide (ch = 0x061C)
    else if page = 0x17 then decide (0x17B4 ≤ ch ∧ ch ≤ 0x17B5)
    else if page = 0x18 then decide (0x180B ≤ ch ∧ ch ≤ 0x180E)
    else if page = 0x20 then
      decide ((0x200B ≤ ch ∧ ch ≤ 0x200F) ∨ (0x202A ≤ ch ∧ ch ≤ 0x202E) ∨
              (0x2060 ≤ ch ∧ ch ≤ 0x206F))
    else if page = 0xFE then
      decide ((0xFE00 ≤ ch ∧ ch ≤ 0xFE0F) ∨ ch = 0xFEFF)
    else if page = 0xFF then decide (0xFFF0 ≤ ch ∧ ch ≤ 0xFFF8)
    else false
  else
    -- Other planes
    if plane = 0x01 then decide (0x1D173 ≤ ch ∧ ch ≤ 0x1D17A)
    else if plane = 0x0E then decide (0xE0000 ≤ ch ∧ ch ≤ 0xE0FFF)
    else false

/-- Follows the spec's words (the Unicode 7.0
`Default_Ignorable_Code_Point` listing quoted in the doc comment at
src/unicode.rs:386-413): membership of a codepoint in the
Default_Ignorable ranges, with no exception carved out. Used only to
compare the code's predicate against the spec's range list. -/
def spec_default_ignorable_ranges (ch : Nat) : Bool :=
  decide (ch = 0x00AD ∨ ch = 0x034F ∨ ch = 0x061C ∨
    (0x115F ≤ ch ∧ ch ≤ 0x1160) ∨ (0x17B4 ≤ ch ∧ ch ≤ 0x17B5) ∨
    (0x180B ≤ ch ∧ ch ≤ 0x180D) ∨ ch = 0x180E ∨
    (0x200B ≤ ch ∧ ch ≤ 0x200F) ∨ (0x202A ≤ ch ∧ ch ≤ 0x202E) ∨
    (0x2060 ≤ ch ∧ ch ≤ 0x2064) ∨ ch = 0x2065 ∨
    (0x2066 ≤ ch ∧ ch ≤ 0x206F) ∨ ch = 0x3164 ∨
    (0xFE00 ≤ ch ∧ ch ≤ 0xFE0F) ∨ ch = 0xFEFF ∨ ch = 0xFFA0 ∨
    (0xFFF0 ≤ ch ∧ ch ≤ 0xFFF8) ∨ (0x1BCA0 ≤ ch ∧ ch ≤ 0x1BCA3) ∨
    (0x1D173 ≤ ch ∧ ch ≤ 0x1D17A) ∨ ch = 0xE0000 ∨ ch = 0xE0001 ∨
    (0xE0002 ≤ ch ∧ ch ≤ 0xE001F) ∨ (0xE0020 ≤ ch ∧ ch ≤ 0xE007F) ∨
    (0xE0080 ≤ ch ∧ ch ≤ 0xE00FF) ∨ (0xE0100 ≤ ch ∧ ch ≤ 0xE01EF) ∨
    (0xE01F0 ≤ ch ∧ ch ≤ 0xE0FFF))

set_option linter.dupNamespace false in
/-- Embedding of the `Space` enum (src/unicode.rs:12-26). -/
inductive Space where
  | SpaceEm
  | SpaceEm2
  | SpaceEm3
  | SpaceEm4
  | SpaceEm5
  | SpaceEm6
  | SpaceEm16
  | Space4Em18
  | Space
  | SpaceFigure
  | SpacePunctuation
  | SpaceNarrow
deriving DecidableEq

/-- The Rust discriminants of `Space` (`SpaceEm = 1` .. `SpaceEm16 = 16`,
then implicitly `Space4Em18 = 17` .. `SpaceNarrow = 21`), used by
`hb_ucd_space_fallback_type`'s `s as i32` cast. -/
def Space.code : Rustybuzz.Space → Nat
  | .SpaceEm => 1
  | .SpaceEm2 => 2
  | .SpaceEm3 => 3
  | .SpaceEm4 => 4
  | .SpaceEm5 => 5
  | .SpaceEm6 => 6
  | .SpaceEm16 => 16
  | .Space4Em18 => 17
  | .Space => 18
  | .SpaceFigure => 19
  | .SpacePunctuation => 20
  | .SpaceNarrow => 21

/-- Embedding of `CharExt::space_fallback` (src/unicode.rs:238): the match
on the sixteen GC=Zs codepoints that have a fallback, everything else
(including OGHAM SPACE MARK) mapping to none. -/
def space_fallback (ch : Nat) : Option Space :=
  if ch = 0x0020 then some .Space               -- SPACE
  else if ch = 0x00A0 then some .Space          -- NO-BREAK SPACE
  else if ch = 0x2000 then some .SpaceEm2       -- EN QUAD
  else if ch = 0x2001 then some .SpaceEm        -- EM QUAD
  else if ch = 0x2002 then some .SpaceEm2       -- EN SPACE
  else if ch = 0x2003 then some .SpaceEm        -- EM SPACE
  else if ch = 0x2004 then some .SpaceEm3       -- THREE-PER-EM SPACE
  else if ch = 0x2005 then some .SpaceEm4       -- FOUR-PER-EM SPACE
  else if ch = 0x2006 then some .SpaceEm6       -- SIX-PER-EM SPACE
  else if ch = 0x2007 then some .SpaceFigure    -- FIGURE SPACE
  else if ch = 0x2008 then some .SpacePunctuation -- PUNCTUATION SPACE
  else if ch = 0x2009 then some .SpaceEm5       -- THIN SPACE
  else if ch = 0x200A then some .SpaceEm16      -- HAIR SPACE
  else if ch = 0x202F then some .SpaceNarrow    -- NARROW NO-BREAK SPACE
  else if ch = 0x205F then some .Space4Em18     -- MEDIUM MATHEMATICAL SPACE
  else if ch = 0x3000 then some .SpaceEm        -- IDEOGRAPHIC SPACE
  else none

/-- Embedding of `CharExt::is_variation_selector` (src/unicode.rs:443). -/
def is_variation_selector (ch : Nat) : Bool :=
  decide ((0x0FE00 ≤ ch ∧ ch ≤ 0x0FE0F) ∨ (0xE0100 ≤ ch ∧ ch ≤ 0xE01EF))

/-- Embedding of `CharExt::is_emoji_extended_pictographic`
(src/unicode.rs:294): the generated range match, written as a disjunction
in the source's order (grouped into a few `decide` blocks so the
`Decidable` instance stays shallow). -/
def is_emoji_extended_pictographic (ch : Nat) : Bool :=
  decide (ch = 0x00A9 ∨ ch = 0x00AE ∨ ch = 0x203C ∨ ch = 0x2049 ∨
    ch = 0x2122 ∨ ch = 0x2139 ∨ (0x2194 ≤ ch ∧ ch ≤ 0x2199) ∨
    (0x21A9 ≤ ch ∧ ch ≤ 0x21AA) ∨ (0x231A ≤ ch ∧ ch ≤ 0x231B) ∨
    ch = 0x2328 ∨ ch = 0x2388 ∨ ch = 0x23CF ∨
    (0x23E9 ≤ ch ∧ ch ≤ 0x23F3) ∨ (0x23F8 ≤ ch ∧ ch ≤ 0x23FA) ∨
    ch = 0x24C2 ∨ (0x25AA ≤ ch ∧ ch ≤ 0x25AB) ∨ ch = 0x25B6) ||
  decide (ch = 0x25C0 ∨ (0x25FB ≤ ch ∧ ch ≤ 0x25FE) ∨
    (0x2600 ≤ ch ∧ ch ≤ 0x2605) ∨ (0x2607 ≤ ch ∧ ch ≤ 0x2612) ∨
    (0x2614 ≤ ch ∧ ch ≤ 0x2685) ∨ (0x2690 ≤ ch ∧ ch ≤ 0x2705) ∨
    (0x2708 ≤ ch ∧ ch ≤ 0x2712) ∨ ch = 0x2714 ∨ ch = 0x2716 ∨
    ch = 0x271D ∨ ch = 0x2721 ∨ ch = 0x2728 ∨
    (0x2733 ≤ ch ∧ ch ≤ 0x2734) ∨ ch = 0x2744 ∨ ch = 0x2747 ∨
    ch = 0x274C ∨ ch = 0x274E) ||
  decide ((0x2753 ≤ ch ∧ ch ≤ 0x2755) ∨
    ch = 0x2757 ∨ (0x2763 ≤ ch ∧ ch ≤ 0x2767) ∨
    (0x2795 ≤ ch ∧ ch ≤ 0x2797) ∨ ch = 0x27A1 ∨ ch = 0x27B0 ∨
    ch = 0x27BF ∨ (0x2934 ≤ ch ∧ ch ≤ 0x2935) ∨
    (0x2B05 ≤ ch ∧ ch ≤ 0x2B07) ∨ (0x2B1B ≤ ch ∧ ch ≤ 0x2B1C) ∨
    ch = 0x2B50 ∨ ch = 0x2B55 ∨ ch = 0x3030 ∨ ch = 0x303D ∨
    ch = 0x3297 ∨ ch = 0x3299) ||
  decide ((0x1F000 ≤ ch ∧ ch ≤ 0x1F0FF) ∨
    (0x1F10D ≤ ch ∧ ch ≤ 0x1F10F) ∨ ch = 0x1F12F ∨
    (0x1F16C ≤ ch ∧ ch ≤ 0x1F171) ∨ (0x1F17E ≤ ch ∧ ch ≤ 0x1F17F) ∨
    ch = 0x1F18E ∨ (0x1F191 ≤ ch ∧ ch ≤ 0x1F19A) ∨
    (0x1F1AD ≤ ch ∧ ch ≤ 0x1F1E5) ∨ (0x1F201 ≤ ch ∧ ch ≤ 0x1F20F) ∨
    ch = 0x1F21A ∨ ch = 0x1F22F ∨ (0x1F232 ≤ ch ∧ ch ≤ 0x1F23A) ∨
    (0x1F23C ≤ ch ∧ ch ≤ 0x1F23F) ∨ (0x1F249 ≤ ch ∧ ch ≤ 0x1F3FA)) ||
  decide ((0x1F400 ≤ ch ∧ ch ≤ 0x1F53D) ∨ (0x1F546 ≤ ch ∧ ch ≤ 0x1F64F) ∨
    (0x1F680 ≤ ch ∧ ch ≤ 0x1F6FF) ∨ (0x1F774 ≤ ch ∧ ch ≤ 0x1F77F) ∨
    (0x1F7D5 ≤ ch ∧ ch ≤ 0x1F7FF) ∨ (0x1F80C ≤ ch ∧ ch ≤ 0x1F80F) ∨
    (0x1F848 ≤ ch ∧ ch ≤ 0x1F84F) ∨ (0x1F85A ≤ ch ∧ ch ≤ 0x1F85F) ∨
    (0x1F888 ≤ ch ∧ ch ≤ 0x1F88F) ∨ (0x1F8AE ≤ ch ∧ ch ≤ 0x1F8FF) ∨
    (0x1F90C ≤ ch ∧ ch ≤ 0x1F93A) ∨ (0x1F93C ≤ ch ∧ ch ≤ 0x1F945) ∨
    (0x1F947 ≤ ch ∧ ch ≤ 0x1FFFD))

/-- Embedding of `hb_ucd_combining_class` (src/unicode.rs:452); the raw
class lookup (external crate, `u8`-valued) is the parameter `ccc`; `none`
models the `unwrap()` panic. -/
def hb_ucd_combining_class (ccc : Nat → Fin 256) (u : Nat) : Option Nat :=
  (charTryFrom u).map fun c => (ccc c).val

/-- Embedding of `hb_ucd_modified_combining_class` (src/unicode.rs:457). -/
def hb_ucd_modified_combining_class (ccc : Nat → Fin 256) (u : Nat) :
    Option Nat :=
  (charTryFrom u).map (modified_combining_class ccc)

/-- Embedding of `hb_ucd_general_category` (src/unicode.rs:462); the
category lookup and the total enum-to-FFI-constant translation are the
parameter `gc`. -/
def hb_ucd_general_category (gc : Nat → Nat) (u : Nat) : Option Nat :=
  (charTryFrom u).map gc

/-- Embedding of `hb_ucd_script` (src/unicode.rs:498); the script lookup
and the total script-to-tag translation are the parameter `sc`. -/
def hb_ucd_script (sc : Nat → Nat) (u : Nat) : Option Nat :=
  (charTryFrom u).map sc

/-- Embedding of `hb_ucd_is_default_ignorable` (src/unicode.rs:665). -/
def hb_ucd_is_default_ignorable (u : Nat) : Option Bool :=
  (charTryFrom u).map is_default_ignorable

/-- Embedding of `hb_ucd_mirroring` (src/unicode.rs:670); the mirroring
pair lookup `unicode_bidi_mirroring::get_mirrored` (external crate) is the
parameter `mir`; a missing mirror maps to 0. -/
def hb_ucd_mirroring (mir : Nat → Option Nat) (u : Nat) : Option Nat :=
  (charTryFrom u).map fun c => (mir c).getD 0

/-- Embedding of `hb_ucd_is_emoji_extended_pictographic`
(src/unicode.rs:675). -/
def hb_ucd_is_emoji_extended_pictographic (u : Nat) : Option Bool :=
  (charTryFrom u).map is_emoji_extended_pictographic

/-- Embedding of `hb_ucd_space_fallback_type` (src/unicode.rs:680); no
fallback maps to 0. -/
def hb_ucd_space_fallback_type (u : Nat) : Option Nat :=
  (charTryFrom u).map fun c => ((space_fallback c).map Space.code).getD 0

/-- Embedding of `hb_ucd_is_variation_selector` (src/unicode.rs:685). -/
def hb_ucd_is_variation_selector (u : Nat) : Option Bool :=
  (charTryFrom u).map is_variation_selector

end Rustybuzz

namespace Rustybuzz

/-- C9: `space_fallback` maps U+2003 (EM SPACE) to the full-em class
`SpaceEm`, maps U+0041 ('A') to none, and maps every codepoint outside its
sixteen-element Zs set to none. -/
theorem space_fallback_spec :
    space_fallback 0x2003 = some Space.SpaceEm ∧
    space_fallback 0x0041 = none ∧
    ∀ ch : Nat, ch ∉ ([0x0020, 0x00A0, 0x2000, 0x2001, 0x2002, 0x2003,
      0x2004, 0x2005, 0x2006, 0x2007, 0x2008, 0x2009, 0x200A, 0x202F,
      0x205F, 0x3000] : List Nat) → space_fallback ch = none := by
  refine ⟨by decide, by decide, ?_⟩
  intro ch h
  simp only [List.mem_cons, List.not_mem_nil, or_false, not_or] at h
  obtain ⟨h1, h2, h3, h4, h5, h6, h7, h8, h9, h10, h11, h12, h13, h14,
    h15, h16⟩ := h
  rw [space_fallback, if_neg h1, if_neg h2, if_neg h3, if_neg h4,
    if_neg h5, if_neg h6, if_neg h7, if_neg h8, if_neg h9, if_neg h10,
    if_neg h11, if_neg h12, if_neg h13, if_neg h14, if_neg h15, if_neg h16]

/-- Witness for C9's outside-the-set clause at the concrete codepoint
U+0042. -/
theorem space_fallback_spec_witness : space_fallback 0x0042 = none :=
  space_fallback_spec.2.2 0x0042 (by decide)

end Rustybuzz

namespace Rustybuzz

/-- C1 counterexample: U+1BCA0 (SHORTHAND FORMAT LETTER OVERLAP) is in the
Default_Ignorable ranges and is none of the four carved-out codepoints
U+115F, U+1160, U+3164, U+FFA0, yet `is_default_ignorable` returns false
for it — the code deliberately also ignores U+1BCA0..1BCA3 (doc comment at
src/unicode.rs:384), so the claim's exception set of exactly four
codepoints is wrong. -/
theorem default_ignorable_shorthand_counterexample :
    spec_default_ignorable_ranges 0x1BCA0 = true ∧
    0x1BCA0 ≠ 0x115F ∧ 0x1BCA0 ≠ 0x1160 ∧
    0x1BCA0 ≠ 0x3164 ∧ 0x1BCA0 ≠ 0xFFA0 ∧
    is_default_ignorable 0x1BCA0 = false := by
  decide

/-- C1 amended: `is_default_ignorable` agrees with the spec's
Default_Ignorable range list on every codepoint once the exception set is
five entries — the four carved-out codepoints U+115F, U+1160, U+3164,
U+FFA0 plus the range U+1BCA0..1BCA3 (also deliberately not hidden, per
the source's doc comment); in particular the four carved-out codepoints and
U+1BCA0..1BCA3 all map to false. -/
theorem is_default_ignorable_ranges_with_exceptions :
    (∀ ch : Nat, is_default_ignorable ch =
      (spec_default_ignorable_ranges ch &&
        !decide (ch = 0x115F ∨ ch = 0x1160 ∨ ch = 0x3164 ∨ ch = 0xFFA0 ∨
                 (0x1BCA0 ≤ ch ∧ ch ≤ 0x1BCA3)))) ∧
    is_default_ignorable 0x115F = false ∧
    is_default_ignorable 0x1160 = false ∧
    is_default_ignorable 0x3164 = false ∧
    is_default_ignorable 0xFFA0 = false ∧
    is_default_ignorable 0x1BCA3 = false := by
  refine ⟨?_, by decide, by decide, by decide, by decide, by decide⟩
  intro ch
  have h16 : ch >>> 16 = ch / 65536 := by
    rw [Nat.shiftRight_eq_div_pow]
  have h8 : ch >>> 8 = ch / 256 := by
    rw [Nat.shiftRight_eq_div_pow]
  rw [Bool.eq_iff_iff]
  simp only [is_default_ignorable, spec_default_ignorable_ranges, h16, h8,
    Bool.and_eq_true, Bool.not_eq_true', decide_eq_true_eq,
    decide_eq_false_iff_not]
  split_ifs <;>
    simp only [decide_eq_true_eq, Bool.false_eq_true, false_iff, not_and,
      not_or, not_not, not_le, not_lt] <;>
    omega

end Rustybuzz

namespace Rustybuzz

/-- C2: for every Hangul syllable `s` in `[0xAC00, 0xD7A3]`,
`hb_ucd_decompose_hangul s` yields exactly one pair `(a, b)` — an LV
syllable plus a trailing consonant when the trailing index of `s` is
nonzero, a leading consonant plus a vowel otherwise, with `b ≠ 0` (so the
full `hb_ucd_decompose` reports a genuine pair, never a singleton) — and
composing that pair (for any composition pair table) reconstructs `s`;
in particular `hb_ucd_decompose_hangul 0xAC01 = some (0xAC00, 0x11A8)`. -/
theorem hangul_decompose_compose_roundtrip :
    (∀ (tbl : Nat → Nat → Option Nat) (dcp : Nat → Option (List Nat))
       (s : Nat), 0xAC00 ≤ s → s ≤ 0xD7A3 →
      ∃ p : Nat × Nat,
        hb_ucd_decompose_hangul s = some p ∧
        hb_ucd_decompose dcp s = some (true, p.1, p.2) ∧
        p.2 ≠ 0 ∧
        ucd_compose tbl p.1 p.2 = some s ∧
        ((s - 0xAC00) % 28 ≠ 0 →
          0xAC00 ≤ p.1 ∧ p.1 ≤ 0xD7A3 ∧ (p.1 - 0xAC00) % 28 = 0 ∧
          0x11A8 ≤ p.2 ∧ p.2 ≤ 0x11C2) ∧
        ((s - 0xAC00) % 28 = 0 →
          0x1100 ≤ p.1 ∧ p.1 ≤ 0x1112 ∧
          0x1161 ≤ p.2 ∧ p.2 ≤ 0x1175)) ∧
    hb_ucd_decompose_hangul 0xAC01 = some (0xAC00, 0x11A8) := by
  constructor
  · intro tbl dcp s h1 h2
    have hsi : (s + (4294967296 - 0xAC00)) % 4294967296 = s - 0xAC00 := by
      omega
    by_cases h28 : (s - 0xAC00) % 28 = 0
    · have hh : hb_ucd_decompose_hangul s
          = some (0x1100 + (s - 0xAC00) / 588, 0x1161 + (s - 0xAC00) % 588 / 28) := by
        simp only [hb_ucd_decompose_hangul, hsi]
        rw [if_neg (by omega), if_neg (by omega)]
      refine ⟨(0x1100 + (s - 0xAC00) / 588, 0x1161 + (s - 0xAC00) % 588 / 28),
        hh, ?_, ?_, ?_, ?_, ?_⟩
      · rw [hb_ucd_decompose, hh]
        rfl
      · show 0x1161 + (s - 0xAC00) % 588 / 28 ≠ 0
        omega
      · show ucd_compose tbl (0x1100 + (s - 0xAC00) / 588)
            (0x1161 + (s - 0xAC00) % 588 / 28) = some s
        simp only [ucd_compose]
        rw [if_pos (by omega)]
        exact congrArg some (by omega)
      · intro h
        exact (h h28).elim
      · intro
        exact ⟨by omega, by omega, by omega, by omega⟩
    · have hh : hb_ucd_decompose_hangul s
          = some (0xAC00 + (s - 0xAC00) / 28 * 28, 0x11A7 + (s - 0xAC00) % 28) := by
        simp only [hb_ucd_decompose_hangul, hsi]
        rw [if_neg (by omega), if_pos (by omega)]
      refine ⟨(0xAC00 + (s - 0xAC00) / 28 * 28, 0x11A7 + (s - 0xAC00) % 28),
        hh, ?_, ?_, ?_, ?_, ?_⟩
      · rw [hb_ucd_decompose, hh]
        rfl
      · show 0x11A7 + (s - 0xAC00) % 28 ≠ 0
        omega
      · show ucd_compose tbl (0xAC00 + (s - 0xAC00) / 28 * 28)
            (0x11A7 + (s - 0xAC00) % 28) = some s
        simp only [ucd_compose]
        rw [if_neg (by omega), if_pos (by omega)]
        exact congrArg some (by omega)
      · intro
        exact ⟨by omega, by omega, by omega, by omega, by omega⟩
      · intro h
        exact (h28 h).elim
  · decide

/-- Witness for C2 at the concrete syllable 0xAC01 with empty tables. -/
theorem hangul_decompose_compose_roundtrip_witness :
    ∃ p : Nat × Nat,
      hb_ucd_decompose_hangul 0xAC01 = some p ∧
      hb_ucd_decompose (fun _ => none) 0xAC01 = some (true, p.1, p.2) ∧
      p.2 ≠ 0 ∧
      ucd_compose (fun _ _ => none) p.1 p.2 = some 0xAC01 ∧
      ((0xAC01 - 0xAC00) % 28 ≠ 0 →
        0xAC00 ≤ p.1 ∧ p.1 ≤ 0xD7A3 ∧ (p.1 - 0xAC00) % 28 = 0 ∧
        0x11A8 ≤ p.2 ∧ p.2 ≤ 0x11C2) ∧
      ((0xAC01 - 0xAC00) % 28 = 0 →
        0x1100 ≤ p.1 ∧ p.1 ≤ 0x1112 ∧
        0x1161 ≤ p.2 ∧ p.2 ≤ 0x1175) :=
  hangul_decompose_compose_roundtrip.1 (fun _ _ => none) (fun _ => none)
    0xAC01 (by decide) (by decide)

end Rustybuzz

namespace Rustybuzz

/-- C6: `hb_ucd_decompose` tries the algorithmic Hangul decomposition
first — whenever it succeeds the result is taken from it and the canonical
decomposition mapping is never consulted; every codepoint inside the
Hangul syllable block succeeds the Hangul attempt (so only inputs outside
the block reach the mapping); and a mapping result whose arity is neither
1 nor 2 is treated as no decomposition: the operation returns false with
the out-pointers still at their initial `(ab, 0)`. -/
theorem decompose_order_and_arity :
    (∀ (dcp : Nat → Option (List Nat)) (ab : Nat) (p : Nat × Nat),
      hb_ucd_decompose_hangul ab = some p →
      hb_ucd_decompose dcp ab = some (true, p.1, p.2)) ∧
    (∀ ab : Nat, 0xAC00 ≤ ab → ab ≤ 0xD7A3 →
      ∃ p : Nat × Nat, hb_ucd_decompose_hangul ab = some p) ∧
    (∀ (dcp : Nat → Option (List Nat)) (ab : Nat) (l : List Nat),
      hb_ucd_decompose_hangul ab = none →
      charTryFrom ab = some ab →
      dcp ab = some l → l.length ≠ 1 → l.length ≠ 2 →
      hb_ucd_decompose dcp ab = some (false, ab, 0)) := by
  refine ⟨?_, ?_, ?_⟩
  · intro dcp ab p h
    rw [hb_ucd_decompose, h]
    rfl
  · intro ab h1 h2
    have hsi : (ab + (4294967296 - 0xAC00)) % 4294967296 = ab - 0xAC00 := by
      omega
    by_cases h28 : (ab - 0xAC00) % 28 = 0
    · exact ⟨_, by
        simp only [hb_ucd_decompose_hangul, hsi]
        rw [if_neg (by omega), if_neg (by omega)]⟩
    · exact ⟨_, by
        simp only [hb_ucd_decompose_hangul, hsi]
        rw [if_neg (by omega), if_pos (by omega)]⟩
  · intro dcp ab l hh hct hd hl1 hl2
    rw [hb_ucd_decompose, hh]
    show (charTryFrom ab).map (fun c => decompose_mapping ab (dcp c))
        = some (false, ab, 0)
    rw [hct, Option.map_some', hd]
    match l, hl1, hl2 with
    | [], _, _ => rfl
    | [x], hl1, _ => exact absurd rfl hl1
    | [x, y], _, hl2 => exact absurd rfl hl2
    | x :: y :: z :: r, _, _ => rfl

/-- Witness for C6: its three clauses instantiated at the Hangul syllable
0xAC01, the block member 0xACE9, and the arity-3 mapping
`fun _ => some [1, 2, 3]` at input 0x41. -/
theorem decompose_order_and_arity_witness :
    hb_ucd_decompose (fun _ => some [1, 2, 3]) 0xAC01
      = some (true, 0xAC00, 0x11A8) ∧
    (∃ p : Nat × Nat, hb_ucd_decompose_hangul 0xACE9 = some p) ∧
    hb_ucd_decompose (fun _ => some [1, 2, 3]) 0x41
      = some (false, 0x41, 0) :=
  ⟨by
    have h := decompose_order_and_arity.1 (fun _ => some [1, 2, 3]) 0xAC01
      (0xAC00, 0x11A8) (by decide)
    exact h,
   decompose_order_and_arity.2.1 0xACE9 (by decide) (by decide),
   decompose_order_and_arity.2.2 (fun _ => some [1, 2, 3]) 0x41 [1, 2, 3]
     (by decide) (by decide) rfl (by decide) (by decide)⟩

/-- C10: the out-pointers of `hb_ucd_decompose` are initialized to
`(ab, 0)` before any lookup, so whenever the operation reports no
decomposition (a `false` return, panic aside) the outputs hold exactly
`(ab, 0)`, and whenever the mapping reports a singleton decomposition the
second output is 0. -/
theorem decompose_output_initialization :
    (∀ (dcp : Nat → Option (List Nat)) (ab : Nat) (r : Nat × Nat),
      hb_ucd_decompose dcp ab = some (false, r) → r = (ab, 0)) ∧
    (∀ (dcp : Nat → Option (List Nat)) (ab c : Nat),
      hb_ucd_decompose_hangul ab = none → charTryFrom ab = some ab →
      dcp ab = some [c] →
      hb_ucd_decompose dcp ab = some (true, c, 0)) := by
  constructor
  · intro dcp ab r h
    rw [hb_ucd_decompose] at h
    cases hh : hb_ucd_decompose_hangul ab with
    | some p =>
      rw [hh] at h
      simp only [hangul_first, Option.some.injEq, Prod.mk.injEq,
        Bool.true_eq_false, false_and] at h
    | none =>
      rw [hh] at h
      clear hh
      replace h : (charTryFrom ab).map (fun c => decompose_mapping ab (dcp c))
          = some (false, r) := h
      cases hct : charTryFrom ab with
      | none =>
        rw [hct] at h
        simp only [Option.map_none'] at h
        exact Option.noConfusion h
      | some c =>
        have hc : c = ab := charTryFrom_eq_some ab c hct
        subst hc
        rw [hct, Option.map_some'] at h
        have hmap : decompose_mapping c (dcp c) = (false, r) := by
          simp only [Option.some.injEq] at h
          exact h
        cases hd : dcp c with
        | none =>
          rw [hd] at hmap
          simp only [decompose_mapping] at hmap
          injection hmap with hb2 hr
          exact hr.symm
        | some l =>
          rw [hd] at hmap
          match l, hmap with
          | [], hmap =>
            simp only [decompose_mapping] at hmap
            injection hmap with hb2 hr
            exact hr.symm
          | [x], hmap =>
            simp only [decompose_mapping] at hmap
            injection hmap with hb2 hr
            exact Bool.noConfusion hb2
          | [x, y], hmap =>
            simp only [decompose_mapping] at hmap
            injection hmap with hb2 hr
            exact Bool.noConfusion hb2
          | x :: y :: z :: t, hmap =>
            simp only [decompose_mapping] at hmap
            injection hmap with hb2 hr
            exact hr.symm
  · intro dcp ab c hh hct hd
    rw [hb_ucd_decompose, hh]
    show (charTryFrom ab).map (fun x => decompose_mapping ab (dcp x))
        = some (true, c, 0)
    rw [hct, Option.map_some', hd]
    rfl

/-- Witness for C10: no-mapping at 0x41 leaves the outputs at `(0x41, 0)`,
and the singleton mapping `0xC5 -> [0xC5]`-style (here `fun _ => some [7]`)
zeroes the second output. -/
theorem decompose_output_initialization_witness :
    ((0x41, 0) : Nat × Nat) = (0x41, 0) ∧
    hb_ucd_decompose (fun _ => some [7]) 0x41 = some (true, 7, 0) :=
  ⟨decompose_output_initialization.1 (fun _ => none) 0x41 (0x41, 0)
     (by decide),
   decompose_output_initialization.2 (fun _ => some [7]) 0x41 7
     (by decide) (by decide) rfl⟩

end Rustybuzz

namespace Rustybuzz

set_option maxHeartbeats 1000000 in
/-- C4: for any composition pair table and decomposition mapping that are
mutually consistent in the sense of the spec (every table composite `z` of
`(x, y)` canonically pair-decomposes to exactly `[x, y]`, is a valid
scalar, and lies outside the algorithmic Hangul block), `compose` returns
none whenever the pair has no primary composite (neither an algorithmic
Hangul composite nor a table entry), and whenever `compose a b` returns a
codepoint `c` — all of which have a canonical pair-decomposition, Hangul
ones algorithmically and table ones by the consistency hypothesis —
`hb_ucd_decompose` on `c` succeeds with exactly the pair `(a, b)`. -/
theorem compose_decompose_inverse :
    ∀ (tbl : Nat → Nat → Option Nat) (dcp : Nat → Option (List Nat)),
      (∀ x y z, tbl x y = some z → dcp z = some [x, y] ∧ z < 0x110000 ∧
        ¬(0xD800 ≤ z ∧ z ≤ 0xDFFF) ∧ ¬(0xAC00 ≤ z ∧ z ≤ 0xD7A3)) →
      (∀ a b, ¬(0x1100 ≤ a ∧ a ≤ 0x1112 ∧ 0x1161 ≤ b ∧ b ≤ 0x1175) →
        ¬(0xAC00 ≤ a ∧ a ≤ 0xD7A3 ∧ (a - 0xAC00) % 28 = 0 ∧
          0x11A8 ≤ b ∧ b ≤ 0x11C2) →
        tbl a b = none → ucd_compose tbl a b = none) ∧
      (∀ a b c, ucd_compose tbl a b = some c →
        hb_ucd_decompose dcp c = some (true, a, b)) := by
  intro tbl dcp hinv
  constructor
  · intro a b h1 h2 h3
    unfold ucd_compose
    rw [if_neg h1, if_neg h2]
    exact h3
  · intro a b c hc
    unfold ucd_compose at hc
    split_ifs at hc with hLV hLVT
    · obtain ⟨hA1, hA2, hB1, hB2⟩ := hLV
      have hxc := Option.some.inj hc
      subst hxc
      have hh : hb_ucd_decompose_hangul
          (0xAC00 + ((a - 0x1100) * 21 + (b - 0x1161)) * 28)
          = some (a, b) := by
        have hsi : (0xAC00 + ((a - 0x1100) * 21 + (b - 0x1161)) * 28 +
            (4294967296 - 0xAC00)) % 4294967296
            = ((a - 0x1100) * 21 + (b - 0x1161)) * 28 := by omega
        simp only [hb_ucd_decompose_hangul, hsi]
        rw [if_neg (by omega), if_neg (by omega)]
        have e1 : 0x1100 + ((a - 0x1100) * 21 + (b - 0x1161)) * 28 / 588
            = a := by omega
        have e2 : 0x1161 + ((a - 0x1100) * 21 + (b - 0x1161)) * 28 % 588 / 28
            = b := by omega
        rw [e1, e2]
      rw [hb_ucd_decompose, hh]
      rfl
    · obtain ⟨hA1, hA2, hA3, hB1, hB2⟩ := hLVT
      have hxc := Option.some.inj hc
      subst hxc
      have hh : hb_ucd_decompose_hangul (a + (b - 0x11A7)) = some (a, b) := by
        have hsi : (a + (b - 0x11A7) + (4294967296 - 0xAC00)) % 4294967296
            = a - 0xAC00 + (b - 0x11A7) := by omega
        simp only [hb_ucd_decompose_hangul, hsi]
        rw [if_neg (by omega), if_pos (by omega)]
        have e1 : 0xAC00 + (a - 0xAC00 + (b - 0x11A7)) / 28 * 28 = a := by
          omega
        have e2 : 0x11A7 + (a - 0xAC00 + (b - 0x11A7)) % 28 = b := by omega
        rw [e1, e2]
      rw [hb_ucd_decompose, hh]
      rfl
    · obtain ⟨hd, hv1, hv2, hnb⟩ := hinv a b c hc
      have hh : hb_ucd_decompose_hangul c = none := by
        simp only [hb_ucd_decompose_hangul]
        rw [if_pos (by omega)]
      rw [hb_ucd_decompose, hh]
      show (charTryFrom c).map (fun x => decompose_mapping c (dcp x))
          = some (true, a, b)
      have hct : charTryFrom c = some c := by
        unfold charTryFrom
        rw [if_pos ⟨hv1, hv2⟩]
      rw [hct, Option.map_some', hd]
      rfl

/-- A one-entry composition pair table (A + COMBINING GRAVE ACCENT
composing to À) used to witness C4. -/
def example_comp_tbl : Nat → Nat → Option Nat := fun x y =>
  if x = 0x41 ∧ y = 0x300 then some 0xC0 else none

/-- The matching one-entry canonical decomposition mapping (À to
A + COMBINING GRAVE ACCENT) used to witness C4. -/
def example_dcp : Nat → Option (List Nat) := fun z =>
  if z = 0xC0 then some [0x41, 0x300] else none

/-- Witness for C4 on the concrete one-entry tables: composing A with
COMBINING GRAVE ACCENT gives À, and decomposing À gives the pair back. -/
theorem compose_decompose_inverse_witness :
    ucd_compose example_comp_tbl 0x41 0x300 = some 0xC0 ∧
    hb_ucd_decompose example_dcp 0xC0 = some (true, 0x41, 0x300) := by
  have hinv : ∀ x y z, example_comp_tbl x y = some z →
      example_dcp z = some [x, y] ∧ z < 0x110000 ∧
      ¬(0xD800 ≤ z ∧ z ≤ 0xDFFF) ∧ ¬(0xAC00 ≤ z ∧ z ≤ 0xD7A3) := by
    intro x y z h
    unfold example_comp_tbl at h
    split_ifs at h with hxy
    obtain ⟨hx, hy⟩ := hxy
    injection h with hz
    subst hx
    subst hy
    rw [show z = 0xC0 from hz.symm]
    refine ⟨by decide, by omega, by omega, by omega⟩
  refine ⟨by decide, ?_⟩
  exact (compose_decompose_inverse example_comp_tbl example_dcp hinv).2
    0x41 0x300 0xC0 (by decide)

end Rustybuzz

namespace Rustybuzz

/-- C8: `char::try_from` rejects exactly the non-scalar values (out of
range or surrogate) before any lookup, and under the precondition that the
argument is a valid Unicode scalar value every exported per-codepoint
operation succeeds: the conversion returns the codepoint itself, so the
`unwrap()` failure branch is unreachable and each wrapper returns a result
(`isSome`) for every choice of the external property tables — each
operation being a pure function, the results are also deterministic. -/
theorem exported_ops_total_on_scalars :
    (∀ v : Nat, 0x110000 ≤ v ∨ (0xD800 ≤ v ∧ v ≤ 0xDFFF) →
      charTryFrom v = none) ∧
    ∀ (gc sc : Nat → Nat) (ccc : Nat → Fin 256) (mir : Nat → Option Nat)
      (tbl : Nat → Nat → Option Nat) (dcp : Nat → Option (List Nat))
      (u a b : Nat),
      u < 0x110000 → ¬(0xD800 ≤ u ∧ u ≤ 0xDFFF) →
      a < 0x110000 → ¬(0xD800 ≤ a ∧ a ≤ 0xDFFF) →
      b < 0x110000 → ¬(0xD800 ≤ b ∧ b ≤ 0xDFFF) →
      charTryFrom u = some u ∧
      (hb_ucd_combining_class ccc u).isSome = true ∧
      (hb_ucd_modified_combining_class ccc u).isSome = true ∧
      (hb_ucd_general_category gc u).isSome = true ∧
      (hb_ucd_script sc u).isSome = true ∧
      (hb_ucd_is_default_ignorable u).isSome = true ∧
      (hb_ucd_mirroring mir u).isSome = true ∧
      (hb_ucd_is_emoji_extended_pictographic u).isSome = true ∧
      (hb_ucd_space_fallback_type u).isSome = true ∧
      (hb_ucd_is_variation_selector u).isSome = true ∧
      (hb_ucd_compose tbl a b).isSome = true ∧
      (hb_ucd_decompose dcp u).isSome = true := by
  constructor
  · intro v hv
    unfold charTryFrom
    rw [if_neg (by omega)]
  · intro gc sc ccc mir tbl dcp u a b hu1 hu2 ha1 ha2 hb1 hb2
    have hcu : charTryFrom u = some u := by
      unfold charTryFrom
      rw [if_pos ⟨hu1, hu2⟩]
    have hca : charTryFrom a = some a := by
      unfold charTryFrom
      rw [if_pos ⟨ha1, ha2⟩]
    have hcb : charTryFrom b = some b := by
      unfold charTryFrom
      rw [if_pos ⟨hb1, hb2⟩]
    refine ⟨hcu, ?_, ?_, ?_, ?_, ?_, ?_, ?_, ?_, ?_, ?_, ?_⟩
    · rw [hb_ucd_combining_class, hcu]
      rfl
    · rw [hb_ucd_modified_combining_class, hcu]
      rfl
    · rw [hb_ucd_general_category, hcu]
      rfl
    · rw [hb_ucd_script, hcu]
      rfl
    · rw [hb_ucd_is_default_ignorable, hcu]
      rfl
    · rw [hb_ucd_mirroring, hcu]
      rfl
    · rw [hb_ucd_is_emoji_extended_pictographic, hcu]
      rfl
    · rw [hb_ucd_space_fallback_type, hcu]
      rfl
    · rw [hb_ucd_is_variation_selector, hcu]
      rfl
    · rw [hb_ucd_compose, hca]
      show ((charTryFrom b).map fun cb => ucd_compose tbl a cb).isSome = true
      rw [hcb]
      rfl
    · rw [hb_ucd_decompose]
      cases hh : hb_ucd_decompose_hangul u with
      | some p => rfl
      | none =>
        show ((charTryFrom u).map fun c =>
          decompose_mapping u (dcp c)).isSome = true
        rw [hcu]
        rfl

/-- Witness for C8 at the surrogate 0xD800 (rejected) and the scalar
values 0x41 / accent pair (all wrappers succeed with trivial tables). -/
theorem exported_ops_total_on_scalars_witness :
    charTryFrom 0xD800 = none ∧
    (charTryFrom 0x41 = some 0x41 ∧
     (hb_ucd_combining_class (fun _ => 0) 0x41).isSome = true ∧
     (hb_ucd_modified_combining_class (fun _ => 0) 0x41).isSome = true ∧
     (hb_ucd_general_category (fun _ => 0) 0x41).isSome = true ∧
     (hb_ucd_script (fun _ => 0) 0x41).isSome = true ∧
     (hb_ucd_is_default_ignorable 0x41).isSome = true ∧
     (hb_ucd_mirroring (fun _ => none) 0x41).isSome = true ∧
     (hb_ucd_is_emoji_extended_pictographic 0x41).isSome = true ∧
     (hb_ucd_space_fallback_type 0x41).isSome = true ∧
     (hb_ucd_is_variation_selector 0x41).isSome = true ∧
     (hb_ucd_compose (fun _ _ => none) 0x41 0x300).isSome = true ∧
     (hb_ucd_decompose (fun _ => none) 0x41).isSome = true) :=
  ⟨exported_ops_total_on_scalars.1 0xD800 (Or.inr ⟨by omega, by omega⟩),
   exported_ops_total_on_scalars.2 (fun _ => 0) (fun _ => 0) (fun _ => 0)
     (fun _ => none) (fun _ _ => none) (fun _ => none) 0x41 0x41 0x300
     (by omega) (by omega) (by omega) (by omega) (by omega) (by omega)⟩

end Rustybuzz
